import Mathlib

set_option maxRecDepth 100000

/-!
Verification of the session-scoped SAP automation server (`src/sap.py`)
against its specification.

The development shallowly embeds the relevant Python code:

* `SessionCredentialStore` (lines 63-113) becomes `CredStoreState` with the
  four operations `set_credentials`, `get_credentials`, `has_credentials`,
  `clear_credentials`; the Python `dict` is modelled as a function
  `String → Option CredPair` (pointwise dict semantics), fallible code
  returns `Except String _`.
* `_get_session_id` (lines 252-260) over an explicit `Context` model;
  Python's `hash` is an abstract parameter `pyHash : String → Int`.
* `SAPClient.post_soap` (lines 155-195): the network is an oracle
  `http : SoapRequest → HttpOutcome`; `xmltodict.parse` and Python `str`
  on parsed values are abstract parameters (pluggable codec per the spec).
  Each embedded invocation also returns the number of network calls it
  performed (the source has exactly one `session.post` call site and no
  loop, so the count is `1` when the call site is reached and `0` when an
  exception is raised before it).
* `create_sales_order` (lines 267-306), `create_single_order` and
  `batch_create_sales_orders` (lines 477-534).  The thread pool collects
  `future.result()` in submission order (`[f.result() for f in futures]`),
  and each future's value is determined by its own input and the oracle,
  so the batch is the order-preserving map of `create_single_order`;
  completion order cannot influence the returned list.  The final
  `json.dumps` serialization is an out-of-scope codec; the embedding
  returns the list of result records it serializes.  The float `QTY` is
  only ever interpolated into the request text, so it is modelled by its
  decimal rendering (a `String`).
-/

/-- A credential pair as stored by `SessionCredentialStore` :
`{"user": ..., "password": ...}` (sap.py lines 85-88). -/
structure CredPair where
  user : String
  password : String
deriving DecidableEq, Repr

/-- State of `SessionCredentialStore` (sap.py lines 63-80): the
`_credentials` dict (as a pointwise map) and `_default_credentials`. -/
structure CredStoreState where
  credentials : String → Option CredPair
  defaultCredentials : Option CredPair

/-- `SessionCredentialStore.__init__` (sap.py lines 65-80): empty dict; the
default pair is taken from the `SAP_USER` / `SAP_PASSWORD` environment
values when both are present and truthy (non-empty). -/
def initStore (default_user default_password : Option String) : CredStoreState where
  credentials := fun _ => Option.none
  defaultCredentials :=
    match default_user, default_password with
    | some u, some p => if u ≠ "" ∧ p ≠ "" then some ⟨u, p⟩ else Option.none
    | _, _ => Option.none

/-- `SessionCredentialStore.set_credentials` (sap.py lines 82-88):
insert-or-overwrite for the given session id. -/
def set_credentials (st : CredStoreState) (session_id user password : String) :
    CredStoreState where
  credentials := fun s => if s = session_id then some ⟨user, password⟩ else st.credentials s
  defaultCredentials := st.defaultCredentials

/-- The `ValueError` message raised by `get_credentials` (sap.py line 102). -/
def credentialsNotFoundMessage (session_id : String) : String :=
  "未找到 session " ++ session_id ++ " 的凭据，且未设置默认凭据。请先调用 set_sap_credentials 设置凭据。"

/-- `SessionCredentialStore.get_credentials` (sap.py lines 90-102): the
session's explicit pair if present, else the default pair if configured,
else a `ValueError` (modelled as `Except.error`).  The `.copy()` defensive
copies are the identity under value semantics. -/
def get_credentials (st : CredStoreState) (session_id : String) :
    Except String CredPair :=
  match st.credentials session_id with
  | some c => Except.ok c
  | Option.none =>
    match st.defaultCredentials with
    | some d => Except.ok d
    | Option.none => Except.error (credentialsNotFoundMessage session_id)

/-- `SessionCredentialStore.has_credentials` (sap.py lines 104-107). -/
def has_credentials (st : CredStoreState) (session_id : String) : Bool :=
  (st.credentials session_id).isSome || st.defaultCredentials.isSome

/-- `SessionCredentialStore.clear_credentials` (sap.py lines 109-113):
delete the explicit pair when present; total (no error when absent). -/
def clear_credentials (st : CredStoreState) (session_id : String) :
    CredStoreState where
  credentials := fun s => if s = session_id then Option.none else st.credentials s
  defaultCredentials := st.defaultCredentials

/-- Model of `ctx.request_context` : `request_id` is `Option`al because the
source reads it with `getattr(..., 'request_id', 'default')`. -/
structure RequestContext where
  request_id : Option String

/-- Model of `ctx.session` : `client_params` is `some s` when the attribute
exists and `str(ctx.session.client_params)` is `s`. -/
structure SessionInfo where
  client_params : Option String

/-- Model of the MCP `Context` argument; each `Option` field models a
`hasattr` check in the source. -/
structure Context where
  request_context : Option RequestContext
  session : Option SessionInfo

/-- `_get_session_id` (sap.py lines 252-260).  `pyHash` abstracts Python's
`hash`; `str(hash(...))` is `toString (pyHash ...)`.  A `none` context is a
falsy `ctx`. -/
def _get_session_id (pyHash : String → Int) (ctx : Option Context) : String :=
  match ctx with
  | Option.none => "default"
  | some c =>
    match c.request_context with
    | Option.none => "default"
    | some rc =>
      let session_id := rc.request_id.getD "default"
      match c.session with
      | some s =>
        match s.client_params with
        | some client_info =>
          if client_info = "" then "default" else toString (pyHash client_info)
        | Option.none => session_id
      | Option.none => session_id

/-- One entry of `SAPConfig.SERVICES` (sap.py lines 29-58). -/
structure ServiceCfg where
  url : String
  action : String
deriving DecidableEq, Repr

/-- The `"SO"` entry of `SAPConfig.SERVICES` (sap.py lines 30-33). -/
def SO_SERVICE : ServiceCfg where
  url := "https://vhivcqasci.sap.inventec.com:44300/sap/bc/srt/rfc/sap/zws_bapi_salesorder_create/100/zws_bapi_salesorder_create_sev/zws_bapi_salesorder_create_binding"
  action := "\"urn:sap-com:document:sap:rfc:functions:ZWS_BAPI_SALESORDER_CREATE:ZBAPI_SALESORDER_CREATERequest\""

/-- The `"STO"` entry of `SAPConfig.SERVICES` (sap.py lines 34-37). -/
def STO_SERVICE : ServiceCfg where
  url := "https://vhivcqasci.sap.inventec.com:44300/sap/bc/srt/rfc/sap/zsd_sto_create/100/zsd_sto_create_svr/zsd_sto_create_binding"
  action := "\"urn:sap-com:document:sap:rfc:functions:ZSD_STO_CREATE:ZSD_STO_CREATERequest\""

/-- The `"DN"` entry of `SAPConfig.SERVICES` (sap.py lines 38-41). -/
def DN_SERVICE : ServiceCfg where
  url := "https://vhivcqasci.sap.inventec.com:44300/sap/bc/srt/rfc/sap/zws_bapi_outb_delivery_create/100/zws_bapi_outb_delivery_create/bind_dn_create"
  action := "\"urn:sap-com:document:sap:rfc:functions:ZWS_BAPI_OUTB_DELIVERY_CREATE_STO:ZBAPI_OUTB_DELIVERY_CREATE_STORequest\""

/-- The `"MAT"` entry of `SAPConfig.SERVICES` (sap.py lines 42-45). -/
def MAT_SERVICE : ServiceCfg where
  url := "https://vhivcqasci.sap.inventec.com:44300/sap/bc/srt/rfc/sap/zws_bapi_material_savedata/100/zws_bapi_material_savedata/bind_material"
  action := "\"urn:sap-com:document:sap:rfc:functions:ZWS_BAPI_MATERIAL_SAVEDATA:ZBAPI_MATERIAL_SAVEDATARequest\""

/-- The `"SRC"` entry of `SAPConfig.SERVICES` (sap.py lines 46-49). -/
def SRC_SERVICE : ServiceCfg where
  url := "https://vhivcqasci.sap.inventec.com:44300/sap/bc/srt/rfc/sap/zsd_source_list_maintain/100/zsd_source_list_maintain_svr/zsd_source_list_maintain_binding"
  action := "\"urn:sap-com:document:sap:rfc:functions:ZSD_SOURCE_LIST_MAINTAIN:ZSD_SOURCE_LIST_MAINTAINRequest\""

/-- The `"INF"` entry of `SAPConfig.SERVICES` (sap.py lines 50-53). -/
def INF_SERVICE : ServiceCfg where
  url := "https://vhivcqasci.sap.inventec.com:44300/sap/bc/srt/rfc/sap/zws_info_record_maintain/100/zws_info_record_maintain_svr/zws_info_record_maintain_binding"
  action := "\"urn:sap-com:document:sap:rfc:functions:ZWS_INFO_RECORD_MAINTAIN:ZSD_INFO_RECORD_MAINTAINRequest\""

/-- The `"QTY"` entry of `SAPConfig.SERVICES` (sap.py lines 54-57). -/
def QTY_SERVICE : ServiceCfg where
  url := "https://vhivcqasci.sap.inventec.com:44300/sap/bc/srt/rfc/sap/zsd_kitting_flow_change/100/zsd_kitting_flow_change_svr/zsd_kitting_flow_change_bind"
  action := "\"urn:sap-com:document:sap:rfc:functions:ZSD_KITTING_FLOW_CHANGE:ZSD_KITTING_FLOW_CHANGERequest\""

/-- `SAPConfig.SERVICES` (sap.py lines 29-58) as a keyed lookup;
`Option.none` models the `KeyError` of an absent key. -/
def SAPConfig.SERVICES (key : String) : Option ServiceCfg :=
  if key = "SO" then some SO_SERVICE
  else if key = "STO" then some STO_SERVICE
  else if key = "DN" then some DN_SERVICE
  else if key = "MAT" then some MAT_SERVICE
  else if key = "SRC" then some SRC_SERVICE
  else if key = "INF" then some INF_SERVICE
  else if key = "QTY" then some QTY_SERVICE
  else Option.none

/-- An `SAPClient` after a successful `__init__` (sap.py lines 126-138). -/
structure SAPClient where
  url : String
  action : String
  user : String
  password : String
deriving DecidableEq, Repr

/-- `SAPClient.__init__` (sap.py lines 130-138): service lookup (a missing
key is a `KeyError`), then credential lookup for the session (propagating
the store's `ValueError`). -/
def SAPClient.make (store : CredStoreState) (key : String) (session_id : String) :
    Except String SAPClient :=
  match SAPConfig.SERVICES key with
  | Option.none => Except.error ("KeyError: " ++ key)
  | some cfg =>
    match get_credentials store session_id with
    | Except.error e => Except.error e
    | Except.ok creds => Except.ok ⟨cfg.url, cfg.action, creds.user, creds.password⟩

/-- A Python value as produced by `xmltodict.parse` and consumed by the
extraction code in `post_soap` (sap.py lines 180-186): `None`, a text
node, a list of nodes, or a (insertion-ordered) dict. -/
inductive PyVal where
  | pnone : PyVal
  | pstr : String → PyVal
  | plist : List PyVal → PyVal
  | pdict : List (String × PyVal) → PyVal
deriving Repr

/-- Python truthiness of the modelled values. -/
def PyVal.truthy : PyVal → Bool
  | .pnone => false
  | .pstr s => s ≠ ""
  | .plist l => !l.isEmpty
  | .pdict d => !d.isEmpty

/-- Python `d.get(k)` on a dict: the value when the key is present, else
`None`. -/
def dictGet (d : List (String × PyVal)) (k : String) : PyVal :=
  match d.find? (fun p => p.1 = k) with
  | some p => p.2
  | Option.none => PyVal.pnone

/-- Python's short-circuiting `or` on values: the left operand when
truthy, else the right. -/
def pyOr (a b : PyVal) : PyVal :=
  if a.truthy then a else b

/-- The envelope chain `parsed.get('soap-env:Envelope') or
parsed.get('soapenv:Envelope') or parsed.get('SOAP-ENV:Envelope')`
(sap.py line 182). -/
def envOf (es : List (String × PyVal)) : PyVal :=
  pyOr (dictGet es "soap-env:Envelope")
    (pyOr (dictGet es "soapenv:Envelope") (dictGet es "SOAP-ENV:Envelope"))

/-- The body chain `env.get('soap-env:Body') or env.get('soapenv:Body') or
env.get('SOAP-ENV:Body')` (sap.py line 184), for a dict-valued `env`. -/
def bodyOf (es : List (String × PyVal)) : PyVal :=
  pyOr (dictGet es "soap-env:Body")
    (pyOr (dictGet es "soapenv:Body") (dictGet es "SOAP-ENV:Body"))

/-- The `try: xmltodict.parse ... except: return response.text` block of
`post_soap` on a 200 response (sap.py lines 179-188).  `parse` abstracts
`xmltodict.parse` (`Option.none` = the parser raised); `pyStr` abstracts
Python `str` on a parsed value.  A `.get` on a non-dict value raises
`AttributeError`, which the bare `except` turns into the raw text. -/
def extract200 (pyStr : PyVal → String) (parse : String → Option PyVal)
    (text : String) : String :=
  match parse text with
  | Option.none => text
  | some parsed =>
    match parsed with
    | .pdict es =>
      let env := envOf es
      if env.truthy then
        match env with
        | .pdict es2 =>
          let body := bodyOf es2
          if body.truthy then pyStr body else text
        | _ => text
      else text
    | _ => text

/-- One outcome of `requests.Session.post`: an HTTP response, a
`requests.exceptions.Timeout`, or any other transport exception with its
message. -/
inductive HttpOutcome where
  | response : Nat → String → HttpOutcome
  | timeout : HttpOutcome
  | exception : String → HttpOutcome
deriving DecidableEq, Repr

/-- The arguments of the single `session.post` call in `post_soap`
(sap.py lines 169-176): url, encoded envelope, basic-auth pair and the
`SOAPAction` header. -/
structure SoapRequest where
  url : String
  data : String
  user : String
  password : String
  action : String
deriving DecidableEq, Repr

/-- The SOAP envelope string built by `post_soap` (sap.py line 158). -/
def soapEnvelope (body_content : String) : String :=
  "<soapenv:Envelope xmlns:soapenv=\"http://schemas.xmlsoap.org/soap/envelope/\" xmlns:urn=\"urn:sap-com:document:sap:rfc:functions\"><soapenv:Header/><soapenv:Body>"
    ++ body_content ++ "</soapenv:Body></soapenv:Envelope>"

/-- The request `post_soap` hands to the transport for a given client and
body content. -/
def soapRequest (client : SAPClient) (body_content : String) : SoapRequest where
  url := client.url
  data := soapEnvelope body_content
  user := client.user
  password := client.password
  action := client.action

/-- The timeout result string (sap.py line 193). -/
def timeoutMessage (request_timeout : Nat) : String :=
  "请求超时：超过 " ++ toString request_timeout ++ " 秒未响应"

/-- The generic transport-error result string (sap.py line 195). -/
def connectionErrorMessage (e : String) : String :=
  "连接错误: " ++ e

/-- The non-200 result string (sap.py line 190). -/
def httpErrorMessage (status : Nat) (text : String) : String :=
  "HTTP Error " ++ toString status ++ ": " ++ text

/-- `SAPClient.post_soap` (sap.py lines 155-195).  The transport is the
oracle `http`; the second component counts network calls (the source has
one `session.post` call site, reached exactly once, with no retry loop in
this layer).  Every path returns a string: no exception escapes. -/
def post_soap (request_timeout : Nat) (pyStr : PyVal → String)
    (parse : String → Option PyVal) (http : SoapRequest → HttpOutcome)
    (client : SAPClient) (body_content : String) : String × Nat :=
  match http (soapRequest client body_content) with
  | .response status text =>
    (if status = 200 then extract200 pyStr parse text
     else httpErrorMessage status text, 1)
  | .timeout => (timeoutMessage request_timeout, 1)
  | .exception e => (connectionErrorMessage e, 1)

/-- Python's `v if v else d` idiom on strings (truthiness = non-empty). -/
def pyDefault (v d : String) : String :=
  if v = "" then d else v

/-- The parameters of `create_sales_order` (sap.py lines 267-281).  `QTY`
is interpolated into the request text only, so it is carried as its
rendered string. -/
structure SalesOrderArgs where
  CUST_PO : String
  CUST_PO_DATE : String
  MATERIAL : String
  QTY : String
  UUID : String
  ORDER_TYPE : String
  SALES_ORG : String
  SALES_CHANNEL : String
  SALES_DIVISION : String
  SOLD_TO_PARTY : String
  SHIP_TO_PARTY : String
  PLANT : String
  SHIPPING_POINT : String
deriving DecidableEq, Repr

/-- The `uuid_tag` expression (sap.py line 301). -/
def uuidTag (u : String) : String :=
  if u = "" then "" else "<UUID>" ++ u ++ "</UUID>"

/-- The `xml_body` rendered by `create_sales_order` (sap.py lines 288-304),
after the per-field `X if X else default` substitutions. -/
def salesOrderBody (a : SalesOrderArgs) : String :=
  let order_type_val := pyDefault a.ORDER_TYPE "ZIES"
  let sales_org_val := pyDefault a.SALES_ORG "TW01"
  let sales_channel_val := pyDefault a.SALES_CHANNEL "03"
  let sales_division_val := pyDefault a.SALES_DIVISION "01"
  let sold_to_val := pyDefault a.SOLD_TO_PARTY "HRCTO-IMX"
  let ship_to_val := pyDefault a.SHIP_TO_PARTY "HRCTO-MX"
  let plant_val := pyDefault a.PLANT "TP01"
  let shipping_pt_val := pyDefault a.SHIPPING_POINT "TW01"
  let cust_po_val := pyDefault a.CUST_PO "TEST_PO"
  let cust_po_date_val := pyDefault a.CUST_PO_DATE "2025-01-01"
  "<urn:ZBAPI_SALESORDER_CREATE>" ++ uuidTag a.UUID
    ++ "<CUST_PO>" ++ cust_po_val ++ "</CUST_PO><CUST_PO_DATE>" ++ cust_po_date_val
    ++ "</CUST_PO_DATE><IT_SO_ITEM><item><MATERIAL_NO>000010</MATERIAL_NO><MATERIAL>"
    ++ a.MATERIAL ++ "</MATERIAL><UNIT>PCE</UNIT><QTY>" ++ a.QTY ++ "</QTY><PLANT>"
    ++ plant_val ++ "</PLANT><SHIPPING_POINT>" ++ shipping_pt_val
    ++ "</SHIPPING_POINT><DELIVERY_DATE>" ++ cust_po_date_val
    ++ "</DELIVERY_DATE></item></IT_SO_ITEM><ORDER_TYPE>" ++ order_type_val
    ++ "</ORDER_TYPE><SALES_CHANNEL>" ++ sales_channel_val
    ++ "</SALES_CHANNEL><SALES_DIVISION>" ++ sales_division_val
    ++ "</SALES_DIVISION><SALES_ORG>" ++ sales_org_val
    ++ "</SALES_ORG><SHIP_TO_PARTY>" ++ ship_to_val
    ++ "</SHIP_TO_PARTY><SOLD_TO_PARTY>" ++ sold_to_val
    ++ "</SOLD_TO_PARTY></urn:ZBAPI_SALESORDER_CREATE>"

/-- `create_sales_order` (sap.py lines 267-306): resolve the session id,
render the body, construct `SAPClient("SO", session_id)` (which may raise
the credential `ValueError`), then `post_soap`.  The pair's second
component counts network calls: `0` when the client constructor raises
(so `post_soap` is never reached), `1` otherwise. -/
def create_sales_order (request_timeout : Nat) (pyStr : PyVal → String)
    (parse : String → Option PyVal) (http : SoapRequest → HttpOutcome)
    (pyHash : String → Int) (store : CredStoreState)
    (a : SalesOrderArgs) (ctx : Option Context) : Except String String × Nat :=
  let session_id := _get_session_id pyHash ctx
  let xml_body := salesOrderBody a
  match SAPClient.make store "SO" session_id with
  | Except.error e => (Except.error e, 0)
  | Except.ok client =>
    let r := post_soap request_timeout pyStr parse http client xml_body
    (Except.ok r.1, r.2)

/-- One element of the `orders` list passed to `batch_create_sales_orders`:
a dict whose fields are read with `order_data.get(key, default)`
(sap.py lines 503-515, 520, 526); an absent key is `Option.none`. -/
structure OrderData where
  CUST_PO : Option String
  CUST_PO_DATE : Option String
  MATERIAL : Option String
  QTY : Option String
  UUID : Option String
  ORDER_TYPE : Option String
  SALES_ORG : Option String
  SALES_CHANNEL : Option String
  SALES_DIVISION : Option String
  SOLD_TO_PARTY : Option String
  SHIP_TO_PARTY : Option String
  PLANT : Option String
  SHIPPING_POINT : Option String
deriving DecidableEq, Repr

/-- The argument unpacking of `create_single_order`'s call to
`create_sales_order` (sap.py lines 502-516): each field read with its
`order_data.get(...)` default (the `QTY` default `0` rendered as "0"). -/
def orderArgs (od : OrderData) : SalesOrderArgs where
  CUST_PO := od.CUST_PO.getD ""
  CUST_PO_DATE := od.CUST_PO_DATE.getD ""
  MATERIAL := od.MATERIAL.getD ""
  QTY := od.QTY.getD "0"
  UUID := od.UUID.getD ""
  ORDER_TYPE := od.ORDER_TYPE.getD "ZIES"
  SALES_ORG := od.SALES_ORG.getD "TW01"
  SALES_CHANNEL := od.SALES_CHANNEL.getD "03"
  SALES_DIVISION := od.SALES_DIVISION.getD "01"
  SOLD_TO_PARTY := od.SOLD_TO_PARTY.getD "HRCTO-IMX"
  SHIP_TO_PARTY := od.SHIP_TO_PARTY.getD "HRCTO-MX"
  PLANT := od.PLANT.getD "TP01"
  SHIPPING_POINT := od.SHIPPING_POINT.getD "TW01"

/-- The per-element result dict built by `create_single_order`
(sap.py lines 518-528): `success` flag, the echoed `order` correlation key
(`order_data.get("CUST_PO", "unknown")`), and either a `result` or an
`error` field. -/
structure BatchResult where
  success : Bool
  order : String
  result : Option String
  error : Option String
deriving DecidableEq, Repr

/-- `create_single_order` (sap.py lines 499-528): run `create_sales_order`
on the unpacked fields under the batch's shared `ctx`; a raised exception
(the credential `ValueError`) is caught and reported as
`success: False` with the exception text, anything returned is reported as
`success: True`. -/
def create_single_order (request_timeout : Nat) (pyStr : PyVal → String)
    (parse : String → Option PyVal) (http : SoapRequest → HttpOutcome)
    (pyHash : String → Int) (store : CredStoreState)
    (ctx : Option Context) (order_data : OrderData) : BatchResult :=
  match (create_sales_order request_timeout pyStr parse http pyHash store
      (orderArgs order_data) ctx).1 with
  | Except.ok r =>
    { success := true
      order := order_data.CUST_PO.getD "unknown"
      result := some r
      error := Option.none }
  | Except.error e =>
    { success := false
      order := order_data.CUST_PO.getD "unknown"
      result := Option.none
      error := some e }

/-- `batch_create_sales_orders` (sap.py lines 477-534): one submission per
input element (`[_thread_pool.submit(create_single_order, order) for order
in orders]`), results collected by iterating the futures list in
submission order (`[future.result() for future in futures]`), hence the
order-preserving map.  The trailing `json.dumps` is an out-of-scope codec
applied to this list. -/
def batch_create_sales_orders (request_timeout : Nat) (pyStr : PyVal → String)
    (parse : String → Option PyVal) (http : SoapRequest → HttpOutcome)
    (pyHash : String → Int) (store : CredStoreState)
    (orders : List OrderData) (ctx : Option Context) : List BatchResult :=
  orders.map (create_single_order request_timeout pyStr parse http pyHash store ctx)

/-- Arguments of C5's failing input: `CUST_PO` supplied empty, everything
else a normal value. -/
def c5args : SalesOrderArgs where
  CUST_PO := ""
  CUST_PO_DATE := "2025-03-01"
  MATERIAL := "MAT1"
  QTY := "5"
  UUID := ""
  ORDER_TYPE := "ZIES"
  SALES_ORG := "TW01"
  SALES_CHANNEL := "03"
  SALES_DIVISION := "01"
  SOLD_TO_PARTY := "HRCTO-IMX"
  SHIP_TO_PARTY := "HRCTO-MX"
  PLANT := "TP01"
  SHIPPING_POINT := "TW01"

/-- A store holding explicit credentials for the `'default'` session. -/
def c5store : CredStoreState :=
  set_credentials (initStore Option.none Option.none) "default" "user5" "pw5"

/-- A store holding explicit credentials for the `'default'` session,
used by the batch scenarios. -/
def c7store : CredStoreState :=
  set_credentials (initStore Option.none Option.none) "default" "user7" "pw7"

/-- First batch element: order reference `PO1`. -/
def c7ord1 : OrderData where
  CUST_PO := some "PO1"
  CUST_PO_DATE := some "2025-01-02"
  MATERIAL := some "M1"
  QTY := some "5"
  UUID := Option.none
  ORDER_TYPE := Option.none
  SALES_ORG := Option.none
  SALES_CHANNEL := Option.none
  SALES_DIVISION := Option.none
  SOLD_TO_PARTY := Option.none
  SHIP_TO_PARTY := Option.none
  PLANT := Option.none
  SHIPPING_POINT := Option.none

/-- Second batch element: order reference `PO2`. -/
def c7ord2 : OrderData where
  CUST_PO := some "PO2"
  CUST_PO_DATE := some "2025-01-03"
  MATERIAL := some "M2"
  QTY := some "7"
  UUID := Option.none
  ORDER_TYPE := Option.none
  SALES_ORG := Option.none
  SALES_CHANNEL := Option.none
  SALES_DIVISION := Option.none
  SOLD_TO_PARTY := Option.none
  SHIP_TO_PARTY := Option.none
  PLANT := Option.none
  SHIPPING_POINT := Option.none

/-- A transport that raises (a simulated connection error) exactly on the
request rendered from `c7ord2` and answers 200/`OKBODY` otherwise. -/
def c7http : SoapRequest → HttpOutcome := fun r =>
  if r.data = soapEnvelope (salesOrderBody (orderArgs c7ord2)) then
    HttpOutcome.exception "boom"
  else HttpOutcome.response 200 "OKBODY"

/-- An `xmltodict.parse` stand-in that always fails (raw text passthrough). -/
def c7parse : String → Option PyVal := fun _ => Option.none

/-- A trivial `str` stand-in. -/
def c7pyStr : PyVal → String := fun _ => ""

/-- The result list of the two-element batch in which the second element
hits a transport error. -/
def c7results : List BatchResult :=
  batch_create_sales_orders 300 c7pyStr c7parse c7http (fun _ => 0) c7store
    [c7ord1, c7ord2] Option.none

/-- An `xmltodict.parse` stand-in that always succeeds with an envelope
whose body is the text node `PAYLOAD`. -/
def c6parse : String → Option PyVal := fun _ =>
  some (PyVal.pdict [("soapenv:Envelope", PyVal.pdict [("soapenv:Body", PyVal.pstr "PAYLOAD")])])

/-- A `str` stand-in returning the text of a text node. -/
def c6pyStr : PyVal → String := fun v =>
  match v with
  | PyVal.pstr s => s
  | _ => "?"

/-- A concrete client for the response-interpretation scenarios. -/
def c6client : SAPClient where
  url := "https://x"
  action := "\"act\""
  user := "u"
  password := "p"

/-- Helper: `get_credentials` succeeds whenever `has_credentials` is true. -/
lemma get_ok_of_has (st : CredStoreState) (S : String)
    (h : has_credentials st S = true) :
    ∃ c, get_credentials st S = Except.ok c := by
  unfold has_credentials at h
  cases hc : st.credentials S with
  | some c => exact ⟨c, by simp [get_credentials, hc]⟩
  | none =>
    cases hd : st.defaultCredentials with
    | some d => exact ⟨d, by simp [get_credentials, hc, hd]⟩
    | none => simp [hc, hd] at h

/-- Helper: the only error `get_credentials` can produce is the
not-found message for the requested session id. -/
lemma get_err_msg (st : CredStoreState) (S : String) (e : String)
    (h : get_credentials st S = Except.error e) :
    e = credentialsNotFoundMessage S := by
  unfold get_credentials at h
  cases hc : st.credentials S with
  | some c => rw [hc] at h; cases h
  | none =>
    rw [hc] at h
    cases hd : st.defaultCredentials with
    | some d => rw [hd] at h; cases h
    | none => rw [hd] at h; cases h; rfl

/-- Helper: `get_credentials` fails with the not-found message whenever
`has_credentials` is false. -/
lemma get_err_of_not_has (st : CredStoreState) (S : String)
    (h : has_credentials st S = false) :
    get_credentials st S = Except.error (credentialsNotFoundMessage S) := by
  unfold has_credentials at h
  cases hc : st.credentials S with
  | some c => simp [hc] at h
  | none =>
    cases hd : st.defaultCredentials with
    | some d => simp [hc, hd] at h
    | none => simp [get_credentials, hc, hd]

/-- C1.  Credential session isolation: for distinct session ids `A ≠ B`,
`set_credentials` on `A` does not change what `get_credentials` returns
for `B` — no session observes another session's explicitly set pair. -/
theorem set_get_isolation (st : CredStoreState) (A B user password : String)
    (h : A ≠ B) :
    get_credentials (set_credentials st A user password) B = get_credentials st B := by
  have hBA : ¬ (B = A) := fun hBA => h hBA.symm
  simp [get_credentials, set_credentials, hBA]

theorem set_get_isolation_witness :
    ("A" : String) ≠ "B" ∧
      get_credentials (set_credentials (initStore Option.none Option.none) "A" "u" "p") "B"
        = get_credentials (initStore Option.none Option.none) "B" :=
  ⟨by decide,
   set_get_isolation (initStore Option.none Option.none) "A" "B" "u" "p" (by decide)⟩

/-- C2.  Credential lookup precedence: the explicit pair for the session
wins; otherwise the process default when configured; otherwise the call
fails with the `ValueError` whose message names the session id and
instructs the caller to call `set_sap_credentials` first. -/
theorem get_credentials_precedence (st : CredStoreState) (S : String) :
    (∀ c, st.credentials S = some c → get_credentials st S = Except.ok c)
    ∧ (st.credentials S = Option.none →
        ∀ d, st.defaultCredentials = some d → get_credentials st S = Except.ok d)
    ∧ (st.credentials S = Option.none → st.defaultCredentials = Option.none →
        get_credentials st S = Except.error (credentialsNotFoundMessage S))
    ∧ credentialsNotFoundMessage S
        = "未找到 session " ++ S
            ++ " 的凭据，且未设置默认凭据。请先调用 set_sap_credentials 设置凭据。" := by
  refine ⟨?_, ?_, ?_, rfl⟩ <;> intros <;> simp [get_credentials, *]

theorem get_credentials_precedence_witness :
    get_credentials (set_credentials (initStore Option.none Option.none) "S1" "u1" "p1") "S1"
        = Except.ok ⟨"u1", "p1"⟩
    ∧ get_credentials (initStore (some "du") (some "dp")) "S2" = Except.ok ⟨"du", "dp"⟩
    ∧ get_credentials (initStore Option.none Option.none) "S3"
        = Except.error (credentialsNotFoundMessage "S3") :=
  ⟨(get_credentials_precedence
      (set_credentials (initStore Option.none Option.none) "S1" "u1" "p1") "S1").1
      ⟨"u1", "p1"⟩ (by decide),
   (get_credentials_precedence (initStore (some "du") (some "dp")) "S2").2.1
      (by decide) ⟨"du", "dp"⟩ (by decide),
   (get_credentials_precedence (initStore Option.none Option.none) "S3").2.2.1
      (by decide) (by decide)⟩

/-- C8.  Clear equivalence and idempotence: after `clear_credentials S`,
`get_credentials S` behaves exactly as on a store in which no `set` ever
happened (same default); and when no explicit pair is present, `clear` is
a no-op on the mapping (in particular it raises no error). -/
theorem clear_then_get (st : CredStoreState) (S : String) :
    get_credentials (clear_credentials st S) S
      = get_credentials ⟨fun _ => Option.none, st.defaultCredentials⟩ S
    ∧ (st.credentials S = Option.none →
        ∀ T, (clear_credentials st S).credentials T = st.credentials T) := by
  constructor
  · simp [get_credentials, clear_credentials]
  · intro h T
    by_cases hT : T = S
    · subst hT; simp [clear_credentials, h]
    · simp [clear_credentials, hT]

theorem clear_then_get_witness :
    get_credentials
        (clear_credentials
          (set_credentials (initStore Option.none Option.none) "S4" "u" "p") "S4") "S4"
      = get_credentials
          ⟨fun _ => Option.none,
           (set_credentials (initStore Option.none Option.none) "S4" "u" "p").defaultCredentials⟩
          "S4"
    ∧ (clear_credentials (initStore Option.none Option.none) "S4").credentials "T"
        = (initStore Option.none Option.none).credentials "T" :=
  ⟨(clear_then_get
      (set_credentials (initStore Option.none Option.none) "S4" "u" "p") "S4").1,
   (clear_then_get (initStore Option.none Option.none) "S4").2 (by decide) "T"⟩

/-- C9.  Contextless session fallback: with no caller context the resolver
returns the fixed sentinel `'default'` (for every choice of the `hash`
function), so any two contextless callers get the same session id and read
the same credential state from any store. -/
theorem contextless_session_default :
    (∀ pyHash : String → Int, _get_session_id pyHash Option.none = "default")
    ∧ (∀ pyHash pyHash2 : String → Int,
        _get_session_id pyHash Option.none = _get_session_id pyHash2 Option.none)
    ∧ (∀ (pyHash : String → Int) (st : CredStoreState),
        get_credentials st (_get_session_id pyHash Option.none)
          = get_credentials st "default") :=
  ⟨fun _ => rfl, fun _ _ => rfl, fun _ _ => rfl⟩

/-- C10.  `has_credentials` is true exactly when `get_credentials`
succeeds; equivalently `get_credentials` fails (with the not-found error)
exactly when the session has no explicit pair and no default is
configured. -/
theorem has_credentials_iff_get_ok (st : CredStoreState) (S : String) :
    (has_credentials st S = true ↔ ∃ c, get_credentials st S = Except.ok c)
    ∧ ((∃ e, get_credentials st S = Except.error e) ↔
        st.credentials S = Option.none ∧ st.defaultCredentials = Option.none) := by
  cases hc : st.credentials S <;> cases hd : st.defaultCredentials <;>
    simp [has_credentials, get_credentials, hc, hd]

/-- C4.  Invocation totality: `post_soap` maps every transport outcome to
a result string (it is a total function, so no exception reaches the
caller); a timeout yields the timeout message stating the configured
duration, any other transport exception yields a message carrying that
exception's text, and exactly one network call is made in every case (no
retry in this layer). -/
theorem post_soap_soft_errors (request_timeout : Nat) (pyStr : PyVal → String)
    (parse : String → Option PyVal) (http : SoapRequest → HttpOutcome)
    (client : SAPClient) (body_content : String) :
    (http (soapRequest client body_content) = HttpOutcome.timeout →
      post_soap request_timeout pyStr parse http client body_content
          = (timeoutMessage request_timeout, 1)
        ∧ timeoutMessage request_timeout
          = "请求超时：超过 " ++ toString request_timeout ++ " 秒未响应")
    ∧ (∀ e, http (soapRequest client body_content) = HttpOutcome.exception e →
        post_soap request_timeout pyStr parse http client body_content
            = (connectionErrorMessage e, 1)
          ∧ connectionErrorMessage e = "连接错误: " ++ e)
    ∧ (post_soap request_timeout pyStr parse http client body_content).2 = 1 := by
  refine ⟨fun h => ⟨by simp [post_soap, h], rfl⟩,
          fun e h => ⟨by simp [post_soap, h], rfl⟩, ?_⟩
  cases h : http (soapRequest client body_content) <;> simp [post_soap, h]

theorem post_soap_soft_errors_witness :
    post_soap 300 (fun _ => "") (fun _ => Option.none)
        (fun _ => HttpOutcome.timeout) c6client "b"
      = (timeoutMessage 300, 1)
    ∧ post_soap 300 (fun _ => "") (fun _ => Option.none)
        (fun _ => HttpOutcome.exception "connection reset") c6client "b"
      = (connectionErrorMessage "connection reset", 1) :=
  ⟨((post_soap_soft_errors 300 (fun _ => "") (fun _ => Option.none)
      (fun _ => HttpOutcome.timeout) c6client "b").1 rfl).1,
   ((post_soap_soft_errors 300 (fun _ => "") (fun _ => Option.none)
      (fun _ => HttpOutcome.exception "connection reset") c6client "b").2.1
      "connection reset" rfl).1⟩

/-- C6 counterexample.  The claim says every 2xx response is parsed and
its envelope body extracted, but the source tests `status_code == 200`
exactly: a 201 response whose text the parser handles fine (here it would
extract `PAYLOAD`, as the 200 case shows) is instead returned as the
`HTTP Error 201` soft failure. -/
theorem http_201_not_parsed_counterexample :
    post_soap 300 c6pyStr c6parse (fun _ => HttpOutcome.response 201 "<x/>") c6client "b"
      = (httpErrorMessage 201 "<x/>", 1)
    ∧ post_soap 300 c6pyStr c6parse (fun _ => HttpOutcome.response 200 "<x/>") c6client "b"
      = ("PAYLOAD", 1)
    ∧ httpErrorMessage 201 "<x/>" ≠ "PAYLOAD" := by
  refine ⟨rfl, rfl, by decide⟩

/-- C6 amended.  Response interpretation with success pinned to status
exactly 200 (not any 2xx): a 200 response goes through the
parse-and-extract path, which returns the raw text when the parser fails,
when the reply has no (truthy) envelope entry, or when the envelope has no
truthy body entry, and returns the stringified body entry otherwise; every
other status — including other 2xx codes — yields the soft-failure string
carrying the status code and the raw body text. -/
theorem post_soap_response_interpretation (request_timeout : Nat)
    (pyStr : PyVal → String) (parse : String → Option PyVal)
    (http : SoapRequest → HttpOutcome) (client : SAPClient)
    (body_content text : String) (status : Nat)
    (h : http (soapRequest client body_content) = HttpOutcome.response status text) :
    (status ≠ 200 →
      post_soap request_timeout pyStr parse http client body_content
        = (httpErrorMessage status text, 1))
    ∧ (status = 200 →
      post_soap request_timeout pyStr parse http client body_content
        = (extract200 pyStr parse text, 1))
    ∧ (parse text = Option.none → extract200 pyStr parse text = text)
    ∧ (∀ es, parse text = some (PyVal.pdict es) → (envOf es).truthy = false →
        extract200 pyStr parse text = text)
    ∧ (∀ es es2, parse text = some (PyVal.pdict es) → envOf es = PyVal.pdict es2 →
        ((bodyOf es2).truthy = true → extract200 pyStr parse text = pyStr (bodyOf es2))
        ∧ ((bodyOf es2).truthy = false → extract200 pyStr parse text = text)) := by
  refine ⟨fun hs => by simp [post_soap, h, hs],
          fun hs => by simp [post_soap, h, hs],
          fun hp => by simp [extract200, hp],
          fun es hp henv => by simp [extract200, hp, henv],
          fun es es2 hp henv => ?_⟩
  constructor
  · intro hbody
    have hne : es2 ≠ [] := by
      intro hnil
      rw [hnil] at hbody
      exact absurd hbody (by decide)
    have htr : (PyVal.pdict es2).truthy = true := by
      cases es2 with
      | nil => exact absurd rfl hne
      | cons hd tl => rfl
    simp [extract200, hp, henv, htr, hbody]
  · intro hbody
    by_cases htr : (PyVal.pdict es2).truthy = true
    · simp [extract200, hp, henv, htr, hbody]
    · have htr2 : (PyVal.pdict es2).truthy = false := by
        cases hval : (PyVal.pdict es2).truthy
        · rfl
        · exact absurd hval htr
      simp [extract200, hp, henv, htr2]

theorem post_soap_response_interpretation_witness :
    post_soap 300 c6pyStr c6parse (fun _ => HttpOutcome.response 500 "ERR") c6client "b"
      = (httpErrorMessage 500 "ERR", 1)
    ∧ post_soap 300 c6pyStr c6parse (fun _ => HttpOutcome.response 200 "t") c6client "b"
      = (extract200 c6pyStr c6parse "t", 1)
    ∧ extract200 c6pyStr (fun _ => Option.none) "raw" = "raw" :=
  ⟨(post_soap_response_interpretation 300 c6pyStr c6parse
      (fun _ => HttpOutcome.response 500 "ERR") c6client "b" "ERR" 500 rfl).1 (by decide),
   (post_soap_response_interpretation 300 c6pyStr c6parse
      (fun _ => HttpOutcome.response 200 "t") c6client "b" "t" 200 rfl).2.1 rfl,
   (post_soap_response_interpretation 300 c6pyStr (fun _ => Option.none)
      (fun _ => HttpOutcome.response 200 "raw") c6client "b" "raw" 200 rfl).2.2.1 rfl⟩

/-- C3.  Batch shape, order and correlation: the batch result list has
exactly one entry per input, the i-th entry is the result of the i-th
input (the futures list is built in input order and `future.result()` is
collected by iterating that list, so completion order is immaterial), and
every entry echoes its input's `CUST_PO` correlation key (`"unknown"`
when absent). -/
theorem batch_shape_order_correlation (request_timeout : Nat)
    (pyStr : PyVal → String) (parse : String → Option PyVal)
    (http : SoapRequest → HttpOutcome) (pyHash : String → Int)
    (store : CredStoreState) (ctx : Option Context) (orders : List OrderData) :
    (batch_create_sales_orders request_timeout pyStr parse http pyHash store
        orders ctx).length = orders.length
    ∧ (∀ i : Nat,
        (batch_create_sales_orders request_timeout pyStr parse http pyHash store
            orders ctx)[i]?
          = (orders[i]?).map
              (create_single_order request_timeout pyStr parse http pyHash store ctx))
    ∧ (∀ od, (create_single_order request_timeout pyStr parse http pyHash store
          ctx od).order = od.CUST_PO.getD "unknown") := by
  refine ⟨by simp [batch_create_sales_orders],
          fun i => by simp [batch_create_sales_orders],
          fun od => ?_⟩
  unfold create_single_order
  cases (create_sales_order request_timeout pyStr parse http pyHash store
      (orderArgs od) ctx).1 <;> rfl

/-- C5 counterexample.  Submitting a sales order with an empty `CUST_PO`
does not fail with any `MissingRequiredField` error: the invocation
succeeds, performs exactly one network call (second component `1`), and
the rendered request silently substitutes the fallback `TEST_PO`. -/
theorem empty_cust_po_no_validation_counterexample :
    create_sales_order 300 (fun _ => "") (fun _ => Option.none)
        (fun _ => HttpOutcome.response 200 "NETRESULT") (fun _ => 0)
        c5store c5args Option.none
      = (Except.ok "NETRESULT", 1)
    ∧ c5args.CUST_PO = ""
    ∧ salesOrderBody c5args = salesOrderBody { c5args with CUST_PO := "TEST_PO" } :=
  ⟨rfl, rfl, rfl⟩

/-- C5 amended.  `create_sales_order` performs no required-field
validation: its only failure mode is the credential not-found error (for
the resolved session), whenever credentials resolve it always reaches the
network (exactly one call) and returns a result, and an empty `CUST_PO`
(resp. `CUST_PO_DATE`) is replaced by the documented fallback `TEST_PO`
(resp. `2025-01-01`) rather than rejected. -/
theorem create_sales_order_no_required_field_validation (request_timeout : Nat)
    (pyStr : PyVal → String) (parse : String → Option PyVal)
    (http : SoapRequest → HttpOutcome) (pyHash : String → Int)
    (store : CredStoreState) (a : SalesOrderArgs) (ctx : Option Context) :
    (∀ e, (create_sales_order request_timeout pyStr parse http pyHash store a ctx).1
        = Except.error e →
      e = credentialsNotFoundMessage (_get_session_id pyHash ctx))
    ∧ (has_credentials store (_get_session_id pyHash ctx) = true →
        (create_sales_order request_timeout pyStr parse http pyHash store a ctx).2 = 1
        ∧ ∃ r, (create_sales_order request_timeout pyStr parse http pyHash store a ctx).1
            = Except.ok r)
    ∧ (a.CUST_PO = "" → salesOrderBody a = salesOrderBody { a with CUST_PO := "TEST_PO" })
    ∧ (a.CUST_PO_DATE = "" →
        salesOrderBody a = salesOrderBody { a with CUST_PO_DATE := "2025-01-01" }) := by
  refine ⟨?_, ?_, ?_, ?_⟩
  · intro e he
    unfold create_sales_order SAPClient.make at he
    cases hg : get_credentials store (_get_session_id pyHash ctx) with
    | ok c => simp [SAPConfig.SERVICES, hg] at he
    | error m =>
      simp [SAPConfig.SERVICES, hg] at he
      rw [← he]
      exact get_err_msg store (_get_session_id pyHash ctx) m hg
  · intro hh
    obtain ⟨c, hc⟩ := get_ok_of_has store (_get_session_id pyHash ctx) hh
    constructor
    · simp only [create_sales_order, SAPClient.make, SAPConfig.SERVICES, hc,
        if_pos rfl]
      cases hout : http (soapRequest
          ⟨SO_SERVICE.url, SO_SERVICE.action, c.user, c.password⟩
          (salesOrderBody a)) <;> simp [post_soap, hout]
    · refine ⟨(post_soap request_timeout pyStr parse http
          ⟨SO_SERVICE.url, SO_SERVICE.action, c.user, c.password⟩
          (salesOrderBody a)).1, ?_⟩
      simp [create_sales_order, SAPClient.make, SAPConfig.SERVICES, hc]
  · intro h
    simp [salesOrderBody, pyDefault, h]
  · intro h
    simp [salesOrderBody, pyDefault, h]

theorem create_sales_order_no_required_field_validation_witness :
    ((create_sales_order 300 (fun _ => "") (fun _ => Option.none)
        (fun _ => HttpOutcome.response 200 "NETRESULT") (fun _ => 0)
        c5store c5args Option.none).2 = 1
      ∧ ∃ r, (create_sales_order 300 (fun _ => "") (fun _ => Option.none)
          (fun _ => HttpOutcome.response 200 "NETRESULT") (fun _ => 0)
          c5store c5args Option.none).1 = Except.ok r)
    ∧ salesOrderBody c5args = salesOrderBody { c5args with CUST_PO := "TEST_PO" } :=
  ⟨(create_sales_order_no_required_field_validation 300 (fun _ => "")
      (fun _ => Option.none) (fun _ => HttpOutcome.response 200 "NETRESULT")
      (fun _ => 0) c5store c5args Option.none).2.1 (by decide),
   (create_sales_order_no_required_field_validation 300 (fun _ => "")
      (fun _ => Option.none) (fun _ => HttpOutcome.response 200 "NETRESULT")
      (fun _ => 0) c5store c5args Option.none).2.2.1 rfl⟩

/-- C7 counterexample.  In the two-element batch where the second
element's call hits a transport error, the batch does complete and the
other element succeeds — but the transport-failing element is NOT
reported as a failure: `post_soap` converts the error to a result string,
so `create_single_order` records it with `success := true` (the error
text only inside its `result`), contradicting the claim that such an
element is reported as a failure. -/
theorem batch_transport_error_not_marked_failure :
    c7results
      = [⟨true, "PO1", some "OKBODY", Option.none⟩,
         ⟨true, "PO2", some (connectionErrorMessage "boom"), Option.none⟩]
    ∧ c7results.map BatchResult.success = [true, true] :=
  ⟨rfl, rfl⟩

/-- C7 amended.  Batch failure isolation as the code implements it: the
result list always has one individually computed entry per input (in
input order, so no element can abort its siblings); an element whose
invocation raises (credentials not found for the batch's session) is
reported with `success := false`, its own correlation key and the error
text; an element that hits a transport error is NOT marked as a failure —
it is reported with `success := true`, its own correlation key, and the
connection-error text as its result. -/
theorem batch_failure_isolation (request_timeout : Nat)
    (pyStr : PyVal → String) (parse : String → Option PyVal)
    (http : SoapRequest → HttpOutcome) (pyHash : String → Int)
    (store : CredStoreState) (ctx : Option Context) (orders : List OrderData) :
    (batch_create_sales_orders request_timeout pyStr parse http pyHash store
        orders ctx).length = orders.length
    ∧ (∀ i : Nat,
        (batch_create_sales_orders request_timeout pyStr parse http pyHash store
            orders ctx)[i]?
          = (orders[i]?).map
              (create_single_order request_timeout pyStr parse http pyHash store ctx))
    ∧ (has_credentials store (_get_session_id pyHash ctx) = false →
        ∀ od, create_single_order request_timeout pyStr parse http pyHash store ctx od
          = ⟨false, od.CUST_PO.getD "unknown", Option.none,
              some (credentialsNotFoundMessage (_get_session_id pyHash ctx))⟩)
    ∧ (∀ od cr e,
        get_credentials store (_get_session_id pyHash ctx) = Except.ok cr →
        http (soapRequest ⟨SO_SERVICE.url, SO_SERVICE.action, cr.user, cr.password⟩
            (salesOrderBody (orderArgs od))) = HttpOutcome.exception e →
        create_single_order request_timeout pyStr parse http pyHash store ctx od
          = ⟨true, od.CUST_PO.getD "unknown", some (connectionErrorMessage e),
              Option.none⟩) := by
  refine ⟨by simp [batch_create_sales_orders],
          fun i => by simp [batch_create_sales_orders], ?_, ?_⟩
  · intro hh od
    have hg := get_err_of_not_has store (_get_session_id pyHash ctx) hh
    simp [create_single_order, create_sales_order, SAPClient.make,
      SAPConfig.SERVICES, hg]
  · intro od cr e hg hhttp
    simp [create_single_order, create_sales_order, SAPClient.make,
      SAPConfig.SERVICES, hg, post_soap, hhttp]

theorem batch_failure_isolation_witness :
    create_single_order 300 c7pyStr c7parse c7http (fun _ => 0) c7store
        Option.none c7ord2
      = ⟨true, "PO2", some (connectionErrorMessage "boom"), Option.none⟩
    ∧ create_single_order 300 c7pyStr c7parse c7http (fun _ => 0)
        (initStore Option.none Option.none) Option.none c7ord1
      = ⟨false, "PO1", Option.none, some (credentialsNotFoundMessage "default")⟩ :=
  ⟨(batch_failure_isolation 300 c7pyStr c7parse c7http (fun _ => 0) c7store
      Option.none []).2.2.2 c7ord2 ⟨"user7", "pw7"⟩ "boom" rfl rfl,
   (batch_failure_isolation 300 c7pyStr c7parse c7http (fun _ => 0)
      (initStore Option.none Option.none) Option.none []).2.2.1 (by decide) c7ord1⟩
